import Mathlib

/-!
Verification of the PubSub order-processing pipeline (Go sources) against its
natural-language specification.  The Go code is shallowly embedded: pure
functions become Lean functions, machine integers become `Int` (the counters
involved only ever increment and stay far from the int64 range), float64
arithmetic in the retry backoff and order validation is modelled over `ℚ`,
fallible operations return `Option` or `Except`, and the stateful consumer
runtime is modelled by explicit state passing over traces of observable
events.
-/

namespace Retry

/-- Go error values as seen by the retry engine (internal/retry/retry.go).
`permanentWrap` is the `*PermanentError` wrapper produced by `Permanent`,
`wrap` is a `fmt.Errorf("...: %w", err)` style wrapper that keeps the chain,
`canceled` is the error returned by `ctx.Err()`. -/
inductive Err where
  | basic : String → Err
  | permanentWrap : Err → Err
  | wrap : String → Err → Err
  | canceled : Err
deriving DecidableEq, Repr

/-- Embedding of `IsPermanent` (retry.go lines 77-80): `errors.As` searches the
unwrap chain for a `*PermanentError`. -/
def IsPermanent : Err → Bool
  | .permanentWrap _ => true
  | .wrap _ e => IsPermanent e
  | _ => false

/-- Embedding of `retry.Config` (retry.go lines 15-20).  The Go delays are
`time.Duration` (int64 nanoseconds) and the multiplier is a float64; both are
modelled over `ℚ`. -/
structure Config where
  maxAttempts : Int
  initialDelay : ℚ
  maxDelay : ℚ
  multiplier : ℚ
deriving DecidableEq, Repr

/-- Embedding of `calculateDelay` (retry.go lines 167-181) over `ℚ`.
`r` stands for the value drawn by `rand.Float64()`, which lies in `[0,1)`.
The float64 arithmetic and the final truncation of `time.Duration(delay)` are
modelled as exact rational arithmetic. -/
def calculateDelay (attempt : Nat) (cfg : Config) (r : ℚ) : ℚ :=
  let d0 := cfg.initialDelay * cfg.multiplier ^ (attempt - 1)
  let d := if d0 > cfg.maxDelay then cfg.maxDelay else d0
  d + d * (1/4) * (r * 2 - 1)

/-- Embedding of `retry.Result` (retry.go lines 83-87).  The `Duration` field
(wall-clock time) is not modelled; the ghost field `invoked` counts how many
times the closure `fn` was actually called, which the Go code does not store
but which the specification quantifies over. -/
structure Result where
  attempts : Int
  err : Option Err
  invoked : Nat
deriving DecidableEq, Repr

/-- Embedding of the loop body of `Do` (retry.go lines 100-157).
`ctxDone t` tells whether the context is done at the t-th cancellation check
(the checks are the `select` at the loop head and the `select` guarding the
backoff wait); `fn a` is the outcome of invoking the closure during attempt
`a`.  The fuel argument counts the loop iterations still permitted; running
out of fuel and failing the `attempt <= MaxAttempts` loop condition both
return `Result{Attempts: cfg.MaxAttempts, Err: lastErr}` exactly as the code
does after the `for` loop. -/
def doFrom (ctxDone : Nat → Bool) (fn : Nat → Option Err) (maxAttempts : Int) :
    Int → Nat → Option Err → Nat → Nat → Result
  | _, _, lastErr, invoked, 0 => ⟨maxAttempts, lastErr, invoked⟩
  | attempt, t, lastErr, invoked, fuel + 1 =>
    if maxAttempts < attempt then ⟨maxAttempts, lastErr, invoked⟩
    else if ctxDone t then ⟨attempt, some .canceled, invoked⟩
    else
      match fn attempt.toNat with
      | none => ⟨attempt, none, invoked + 1⟩
      | some e =>
        if IsPermanent e then ⟨attempt, some e, invoked + 1⟩
        else if attempt < maxAttempts then
          if ctxDone (t + 1) then ⟨attempt, some .canceled, invoked + 1⟩
          else doFrom ctxDone fn maxAttempts (attempt + 1) (t + 2) (some e) (invoked + 1) fuel
        else doFrom ctxDone fn maxAttempts (attempt + 1) (t + 1) (some e) (invoked + 1) fuel

/-- Embedding of `Do` (retry.go lines 100-157): the loop starts at attempt 1
with no recorded error; `cfg.maxAttempts.toNat + 1` iterations of fuel cover
every pass of the Go `for` loop. -/
def Do (ctxDone : Nat → Bool) (cfg : Config) (fn : Nat → Option Err) : Result :=
  doFrom ctxDone fn cfg.maxAttempts 1 0 none 0 (cfg.maxAttempts.toNat + 1)

end Retry

namespace Tracker

/-- Typed Kafka error codes relevant to `handleKafkaError`
(internal tracker source, lines 194-235). -/
inductive KafkaErrCode where
  | errTimedOut
  | errAllBrokersDown
  | other : Int → KafkaErrCode
deriving DecidableEq, Repr

/-- Errors returned by `consumer.ReadMessage`: either a typed `kafka.Error`
(with its code and its `Error()` text) or any other Go error value, which
fails the `err.(kafka.Error)` type assertion. -/
inductive ReadErr where
  | kafka : KafkaErrCode → String → ReadErr
  | generic : String → ReadErr
deriving DecidableEq, Repr

/-- Health-log writes performed by the error handler. -/
inductive LogAct where
  | info : String → LogAct
  | error : String → LogAct
deriving DecidableEq, Repr

/-- Boolean test that `needle` is a leading block of `hay`. -/
def leadBlock : List Char → List Char → Bool
  | [], _ => true
  | _ :: _, [] => false
  | a :: as, b :: bs => a == b && leadBlock as bs

/-- Boolean test that `needle` occurs contiguously inside `hay`; embeds
Go `strings.Contains`. -/
def anyBlock (needle : List Char) : List Char → Bool
  | [] => needle.isEmpty
  | c :: rest => leadBlock needle (c :: rest) || anyBlock needle rest

/-- Embedding of `strings.Contains(hay, needle)`. -/
def strContains (hay needle : String) : Bool :=
  anyBlock needle.toList hay.toList

/-- Embedding of `Tracker.handleKafkaError` (tracker source lines 194-235).
Input: the configured `MaxErrors`, the read error and the current value of the
`consecutiveErrors` counter.  Output: the returned `shouldStop` flag, the new
counter value, and the list of health-log writes performed, in order.  Note
that a `generic` (non `kafka.Error`) value falls through the failed type
assertion and returns immediately: nothing is logged and the counter is kept. -/
def handleKafkaError (maxErrors : Int) (e : ReadErr) (consecutive : Int) :
    Bool × Int × List LogAct :=
  match e with
  | .generic _ => (false, consecutive, [])
  | .kafka code msg =>
    if code = .errTimedOut then (false, 0, [])
    else
      if strContains msg "brokers are down" || strContains msg "Connection refused"
          || code = .errAllBrokersDown then
        if maxErrors ≤ consecutive + 1 then
          (true, consecutive + 1, [.info "Kafka semble indisponible"])
        else (false, consecutive + 1, [])
      else
        if maxErrors ≤ consecutive + 1 then
          (true, consecutive + 1,
            [.error "Erreur de lecture du message Kafka", .error "Trop derreurs consecutives"])
        else (false, consecutive + 1, [.error "Erreur de lecture du message Kafka"])

/-- Embedding of `SystemMetrics` (tracker source lines 65-72): the three int64
counters, modelled over `Int` (they only ever increment).  The timestamps are
not modelled. -/
structure Metrics where
  received : Int
  processed : Int
  failed : Int
deriving DecidableEq, Repr

/-- The zero-valued metrics block created by `New` (tracker source lines 105-111). -/
def initialMetrics : Metrics := ⟨0, 0, 0⟩

/-- Embedding of `SystemMetrics.recordMetrics` (tracker source lines 75-87). -/
def recordMetrics (processed failed : Bool) (m : Metrics) : Metrics :=
  { received := m.received + 1
    processed := if processed then m.processed + 1 else m.processed
    failed := if failed then m.failed + 1 else m.failed }

/-- A Kafka message as used by `processMessage` and `LogEvent`. -/
structure KMessage where
  topic : String
  partition : Int
  offset : Int
  value : String
deriving DecidableEq, Repr

/-- Embedding of `models.EventEntry`, the audit line written by `LogEvent`. -/
structure EventEntry where
  eventType : String
  kafkaTopic : String
  kafkaPartition : Int
  kafkaOffset : Int
  rawMessage : String
  messageSize : Nat
  deserialized : Bool
  error : Option String
deriving DecidableEq, Repr

/-- Embedding of `Logger.LogEvent` (tracker logger source lines 79-117): the
single audit entry appended for the message.  `orderPresent` is whether a
deserialized order was passed, `deserializationError` the error text if any.
Encoding failures (which print to stderr) are not modelled: the write is
assumed durable, as the specification does throughout. -/
def LogEvent (msg : KMessage) (orderPresent : Bool)
    (deserializationError : Option String) : EventEntry :=
  { eventType :=
      if deserializationError.isSome then "message.received.deserialization_error"
      else "message.received"
    kafkaTopic := msg.topic
    kafkaPartition := msg.partition
    kafkaOffset := msg.offset
    rawMessage := msg.value
    messageSize := msg.value.length
    deserialized := orderPresent
    error := deserializationError }

/-- Observable actions of `processMessage`, in program order. -/
inductive PEvent where
  | audit : EventEntry → PEvent
  | metricUpd : Bool → Bool → PEvent
  | errLog : Int → PEvent
  | dispatch : PEvent
deriving DecidableEq, Repr

/-- Recognizer for audit-write events. -/
def isAuditEvent : PEvent → Bool
  | .audit _ => true
  | _ => false

/-- Embedding of `Tracker.processMessage` (tracker source lines 238-260) as
the ordered trace of its observable actions.  `deserErr` is the outcome of
`json.Unmarshal(msg.Value, &order)` (an external library call, passed in as a
parameter): `none` means the payload deserialized, `some s` means it failed
with error text `s`.  The trace is: the `LogEvent` audit write, then either
the failure path (`recordMetrics(false, true)` and the ERROR health log) or
the success path (`recordMetrics(true, false)` and `displayOrder`). -/
def processMessage (deserErr : Option String) (msg : KMessage) : List PEvent :=
  .audit (LogEvent msg deserErr.isNone deserErr) ::
    match deserErr with
    | some _ => [.metricUpd false true, .errLog msg.offset]
    | none => [.metricUpd true false, .dispatch]

/-- The effect of one `processMessage` call on the metrics block
(tracker source lines 250-259). -/
def applyMessage (deserErr : Option String) (m : Metrics) : Metrics :=
  match deserErr with
  | some _ => recordMetrics false true m
  | none => recordMetrics true false m

/-- Metrics after a sequence of `processMessage` calls. -/
def applyMessages (l : List (Option String)) (m : Metrics) : Metrics :=
  l.foldl (fun m e => applyMessage e m) m

/-- The pieces of tracker state observed by `Stop` (tracker source lines
297-312): the `running` flag and whether `stopChan` has been closed. -/
structure StopState where
  running : Bool
  stopChanClosed : Bool
deriving DecidableEq, Repr

/-- Embedding of `Tracker.Stop` (tracker source lines 297-312): the running
flag is cleared under the mutex, then `close(t.stopChan)` runs.  Closing an
already-closed Go channel panics, modelled by returning `none`. -/
def Stop (s : StopState) : Option StopState :=
  if s.stopChanClosed then none
  else some { running := false, stopChanClosed := true }

/-- One result of `consumer.ReadMessage` in the read loop: an error, or a
message paired with the outcome its payload will produce in `json.Unmarshal`. -/
inductive ReadRes where
  | err : ReadErr → ReadRes
  | msg : Option String → KMessage → ReadRes
deriving DecidableEq, Repr

/-- Tracker state threaded through the read loop. -/
structure RunState where
  running : Bool
  consecutive : Int
  metrics : Metrics
deriving DecidableEq, Repr

/-- Embedding of the read loop of `Tracker.Run` (tracker source lines
160-183) over a finite sequence of read results.  Each iteration first
observes `isRunning()`; on an error it calls `handleKafkaError` and, when
that returns true, executes `break` - leaving the `running` flag untouched;
on a message it resets the counter and processes the message.  An exhausted
input list is the observation point for a loop that would otherwise block in
`ReadMessage`. -/
def runFrom (maxErrors : Int) : List ReadRes → RunState → RunState
  | [], s => s
  | r :: rest, s =>
    if s.running then
      match r with
      | .err e =>
        let res := handleKafkaError maxErrors e s.consecutive
        if res.1 then { s with consecutive := res.2.1 }
        else runFrom maxErrors rest { s with consecutive := res.2.1 }
      | .msg de _ =>
        runFrom maxErrors rest
          { s with consecutive := 0, metrics := applyMessage de s.metrics }
    else s

/-- Embedding of `Tracker.Run` (tracker source lines 160-183): sets
`running := true`, then runs the read loop.  The spawned metrics goroutine
does not touch the loop state and is not modelled. -/
def Run (maxErrors : Int) (inputs : List ReadRes) (s : RunState) : RunState :=
  runFrom maxErrors inputs { s with running := true }

end Tracker

namespace Models

/-- Boolean test that every character of `s` is whitespace; embeds the Go
check `strings.TrimSpace(s) == ""` (true for the empty string as well). -/
def isBlank (s : String) : Bool :=
  s.toList.all Char.isWhitespace

/-- Characters admitted by the local part of the email pattern
`[a-zA-Z0-9._%+-]`. -/
def localChar (c : Char) : Bool :=
  c.isAlphanum || c == '.' || c == '_' || c == '%' || c == '+' || c == '-'

/-- Characters admitted by the domain part of the email pattern
`[a-zA-Z0-9.-]`. -/
def domChar (c : Char) : Bool :=
  c.isAlphanum || c == '.' || c == '-'

/-- All decompositions of a list into a leading and a trailing block. -/
def splitsList {α : Type} : List α → List (List α × List α)
  | [] => [([], [])]
  | a :: as => ([], a :: as) :: (splitsList as).map (fun p => (a :: p.1, p.2))

/-- Embedding of `emailRegex.MatchString` for the anchored pattern of
order.go line 38: the string matches iff it decomposes as a nonempty run of
local characters, an at sign, a nonempty run of domain characters, a dot and
at least two letters.  The search over decompositions realizes the
backtracking semantics of the regular expression. -/
def emailMatch (s : String) : Bool :=
  (splitsList s.toList).any fun pr =>
    match pr.2 with
    | '@' :: rest =>
      !pr.1.isEmpty && pr.1.all localChar &&
        ((splitsList rest).any fun dr =>
          match dr.2 with
          | '.' :: tld =>
            !dr.1.isEmpty && dr.1.all domChar && decide (2 ≤ tld.length)
              && tld.all Char.isAlpha
          | _ => false)
    | _ => false

/-- The sentinel validation errors of order.go lines 19-35; `itemErr i e` is
the wrapper produced by `fmt.Errorf("item %d: %w", i, err)`. -/
inductive ValErr where
  | emptyOrderID
  | invalidSequence
  | emptyStatus
  | noItems
  | invalidCustomerID
  | invalidCustomerName
  | invalidEmail
  | invalidItemID
  | invalidItemName
  | invalidQuantity
  | invalidUnitPrice
  | invalidTotalPrice
  | invalidSubtotal
  | invalidTax
  | invalidTotal
  | itemErr : Nat → ValErr → ValErr
deriving DecidableEq, Repr

/-- Embedding of `models.CustomerInfo` (order.go lines 42-49). -/
structure CustomerInfo where
  customerID : String
  name : String
  email : String
  phone : String
  address : String
  loyaltyLevel : String
deriving DecidableEq, Repr

/-- Embedding of `CustomerInfo.Validate` (order.go lines 55-66). -/
def CustomerInfo.Validate (c : CustomerInfo) : Option ValErr :=
  if isBlank c.customerID then some .invalidCustomerID
  else if isBlank c.name then some .invalidCustomerName
  else if c.email ≠ "" ∧ emailMatch c.email = false then some .invalidEmail
  else none

/-- Embedding of `models.OrderItem` (order.go lines 81-87); float64 prices
are modelled over `ℚ`. -/
structure OrderItem where
  itemID : String
  itemName : String
  quantity : Int
  unitPrice : ℚ
  totalPrice : ℚ
deriving DecidableEq, Repr

/-- Embedding of `OrderItem.Validate` (order.go lines 93-111). -/
def OrderItem.Validate (it : OrderItem) : Option ValErr :=
  if isBlank it.itemID then some .invalidItemID
  else if isBlank it.itemName then some .invalidItemName
  else if it.quantity ≤ 0 then some .invalidQuantity
  else if it.unitPrice ≤ 0 then some .invalidUnitPrice
  else if |it.totalPrice - (it.quantity : ℚ) * it.unitPrice| > 1/100 then
    some .invalidTotalPrice
  else none

/-- Embedding of `models.InventoryStatus` (order.go lines 70-78); none of its
fields is consulted by validation. -/
structure InventoryStatus where
  itemID : String
  itemName : String
  availableQty : Int
  reservedQty : Int
  unitPrice : ℚ
  inStock : Bool
  warehouse : String
deriving DecidableEq, Repr

/-- Embedding of `models.OrderMetadata` (order.go lines 115-121). -/
structure OrderMetadata where
  timestamp : String
  version : String
  eventType : String
  source : String
  correlationID : String
deriving DecidableEq, Repr

/-- Embedding of `models.Order` (order.go lines 126-154). -/
structure Order where
  orderID : String
  sequence : Int
  status : String
  customerInfo : CustomerInfo
  items : List OrderItem
  inventory : InventoryStatus
  subTotal : ℚ
  tax : ℚ
  shippingFee : ℚ
  total : ℚ
  currency : String
  paymentMethod : String
  deliveryNotes : String
  metadata : OrderMetadata
deriving DecidableEq, Repr

/-- Embedding of the item loop of `Order.Validate` (order.go lines 183-189):
returns the first item error, wrapped with its 1-based index, or the
accumulated sum of the item total prices. -/
def validateItems : List OrderItem → Nat → ℚ → Except ValErr ℚ
  | [], _, acc => .ok acc
  | it :: rest, i, acc =>
    match it.Validate with
    | some e => .error (.itemErr (i + 1) e)
    | none => validateItems rest (i + 1) (acc + it.totalPrice)

/-- Embedding of `Order.Validate` (order.go lines 161-206). -/
def Order.Validate (o : Order) : Option ValErr :=
  if isBlank o.orderID then some .emptyOrderID
  else if o.sequence ≤ 0 then some .invalidSequence
  else if isBlank o.status then some .emptyStatus
  else
    match o.customerInfo.Validate with
    | some e => some e
    | none =>
      if o.items.isEmpty then some .noItems
      else
        match validateItems o.items 0 0 with
        | .error e => some e
        | .ok sub =>
          if |o.subTotal - sub| > 1/100 then some .invalidSubtotal
          else if o.tax < 0 then some .invalidTax
          else if |o.total - (o.subTotal + o.tax + o.shippingFee)| > 1/100 then
            some .invalidTotal
          else none

/-- Spec-side per-item condition, following the words of the claim: positive
quantity, positive unit price, per-item total matching quantity times unit
price within 0.01, and the required item strings nonempty (nonblank). -/
def itemSpecPass (it : OrderItem) : Bool :=
  !isBlank it.itemID && !isBlank it.itemName
    && decide (0 < it.quantity) && decide (0 < it.unitPrice)
    && decide (|it.totalPrice - (it.quantity : ℚ) * it.unitPrice| ≤ 1/100)

/-- Spec-side order condition, following the words of the claim (spec section
8, property 6): required string fields nonempty (read as nonblank, matching
the TrimSpace convention for required fields), sequence at least 1, at least
one item each passing the item condition, subtotal matching the sum of item
totals within 0.01, nonnegative tax, total matching subtotal plus tax plus
shipping within 0.01, and email empty or matching the email pattern. -/
def orderSpecPass (o : Order) : Bool :=
  !isBlank o.orderID && decide (1 ≤ o.sequence) && !isBlank o.status
    && !isBlank o.customerInfo.customerID && !isBlank o.customerInfo.name
    && (o.customerInfo.email == "" || emailMatch o.customerInfo.email)
    && !o.items.isEmpty && o.items.all itemSpecPass
    && decide (|o.subTotal - (o.items.map OrderItem.totalPrice).sum| ≤ 1/100)
    && decide (0 ≤ o.tax)
    && decide (|o.total - (o.subTotal + o.tax + o.shippingFee)| ≤ 1/100)

end Models

namespace Config

/-- Embedding of `config.AppConfig` (config loader source lines 14-71),
flattened to the leaf keys.  Go int fields become `Int`, the float64
multiplier becomes `ℚ`. -/
structure AppConfig where
  appEnv : String
  appLogLevel : String
  kafkaBroker : String
  kafkaTopic : String
  kafkaConsumerGroup : String
  producerIntervalMs : Int
  producerFlushTimeoutMs : Int
  trackerLogFile : String
  trackerEventsFile : String
  trackerMetricsIntervalSeconds : Int
  trackerReadTimeoutMs : Int
  trackerMaxConsecutiveErrors : Int
  monitorMaxRecentLogs : Int
  monitorMaxRecentEvents : Int
  monitorUIUpdateMs : Int
  retryMaxAttempts : Int
  retryInitialDelayMs : Int
  retryMaxDelayMs : Int
  retryMultiplier : ℚ
  dlqEnabled : Bool
  dlqTopic : String
deriving DecidableEq, Repr

/-- Embedding of `DefaultConfig` (config loader source lines 78-116), with
the constants of internal/config/config.go substituted. -/
def DefaultConfig : AppConfig where
  appEnv := "development"
  appLogLevel := "info"
  kafkaBroker := "localhost:9092"
  kafkaTopic := "orders"
  kafkaConsumerGroup := "order-tracker-group"
  producerIntervalMs := 2000
  producerFlushTimeoutMs := 5000
  trackerLogFile := "tracker.log"
  trackerEventsFile := "tracker.events"
  trackerMetricsIntervalSeconds := 30
  trackerReadTimeoutMs := 1000
  trackerMaxConsecutiveErrors := 3
  monitorMaxRecentLogs := 20
  monitorMaxRecentEvents := 20
  monitorUIUpdateMs := 500
  retryMaxAttempts := 3
  retryInitialDelayMs := 100
  retryMaxDelayMs := 5000
  retryMultiplier := 2
  dlqEnabled := true
  dlqTopic := "orders-dlq"

/-- A parsed YAML configuration file: `some` for the keys the file provides,
`none` for absent keys.  `yaml.Unmarshal` into the default-initialized
structure keeps the prior value of every absent key. -/
structure YamlConfig where
  appEnv : Option String := none
  appLogLevel : Option String := none
  kafkaBroker : Option String := none
  kafkaTopic : Option String := none
  kafkaConsumerGroup : Option String := none
  producerIntervalMs : Option Int := none
  producerFlushTimeoutMs : Option Int := none
  trackerLogFile : Option String := none
  trackerEventsFile : Option String := none
  trackerMetricsIntervalSeconds : Option Int := none
  trackerReadTimeoutMs : Option Int := none
  trackerMaxConsecutiveErrors : Option Int := none
  monitorMaxRecentLogs : Option Int := none
  monitorMaxRecentEvents : Option Int := none
  monitorUIUpdateMs : Option Int := none
  retryMaxAttempts : Option Int := none
  retryInitialDelayMs : Option Int := none
  retryMaxDelayMs : Option Int := none
  retryMultiplier : Option ℚ := none
  dlqEnabled : Option Bool := none
  dlqTopic : Option String := none
deriving DecidableEq, Repr

/-- Embedding of `loadFromYAML` on a successfully parsed file: keys present
in the file overwrite the current value, absent keys keep it. -/
def applyYaml (y : YamlConfig) (c : AppConfig) : AppConfig where
  appEnv := y.appEnv.getD c.appEnv
  appLogLevel := y.appLogLevel.getD c.appLogLevel
  kafkaBroker := y.kafkaBroker.getD c.kafkaBroker
  kafkaTopic := y.kafkaTopic.getD c.kafkaTopic
  kafkaConsumerGroup := y.kafkaConsumerGroup.getD c.kafkaConsumerGroup
  producerIntervalMs := y.producerIntervalMs.getD c.producerIntervalMs
  producerFlushTimeoutMs := y.producerFlushTimeoutMs.getD c.producerFlushTimeoutMs
  trackerLogFile := y.trackerLogFile.getD c.trackerLogFile
  trackerEventsFile := y.trackerEventsFile.getD c.trackerEventsFile
  trackerMetricsIntervalSeconds :=
    y.trackerMetricsIntervalSeconds.getD c.trackerMetricsIntervalSeconds
  trackerReadTimeoutMs := y.trackerReadTimeoutMs.getD c.trackerReadTimeoutMs
  trackerMaxConsecutiveErrors :=
    y.trackerMaxConsecutiveErrors.getD c.trackerMaxConsecutiveErrors
  monitorMaxRecentLogs := y.monitorMaxRecentLogs.getD c.monitorMaxRecentLogs
  monitorMaxRecentEvents := y.monitorMaxRecentEvents.getD c.monitorMaxRecentEvents
  monitorUIUpdateMs := y.monitorUIUpdateMs.getD c.monitorUIUpdateMs
  retryMaxAttempts := y.retryMaxAttempts.getD c.retryMaxAttempts
  retryInitialDelayMs := y.retryInitialDelayMs.getD c.retryInitialDelayMs
  retryMaxDelayMs := y.retryMaxDelayMs.getD c.retryMaxDelayMs
  retryMultiplier := y.retryMultiplier.getD c.retryMultiplier
  dlqEnabled := y.dlqEnabled.getD c.dlqEnabled
  dlqTopic := y.dlqTopic.getD c.dlqTopic

/-- The environment variables read by `loadFromEnv`.  Go `os.Getenv` returns
the empty string both for an unset variable and for one set to the empty
string, so each entry is a plain string and the empty string means unset. -/
structure Env where
  appEnv : String := ""
  logLevel : String := ""
  kafkaBroker : String := ""
  kafkaTopic : String := ""
  kafkaConsumerGroup : String := ""
  producerIntervalMs : String := ""
  trackerLogFile : String := ""
  trackerEventsFile : String := ""
  retryMaxAttempts : String := ""
  dlqEnabled : String := ""
  dlqTopic : String := ""
deriving DecidableEq, Repr

/-- Digit-string accumulator for `Atoi`. -/
def digitsGo : List Char → Nat → Option Nat
  | [], acc => some acc
  | c :: cs, acc =>
    if c.isDigit then digitsGo cs (acc * 10 + (c.toNat - 48)) else none

/-- Value of a nonempty all-digit character list. -/
def digitsVal (l : List Char) : Option Nat :=
  if l.isEmpty then none else digitsGo l 0

/-- Embedding of `strconv.Atoi`: an optional sign followed by at least one
digit (int64 overflow is not modelled). -/
def Atoi (s : String) : Option Int :=
  match s.toList with
  | '+' :: ds => (digitsVal ds).map Int.ofNat
  | '-' :: ds => (digitsVal ds).map (fun n => -(n : Int))
  | ds => (digitsVal ds).map Int.ofNat

/-- Embedding of `loadFromEnv` (config loader source lines 171-220): each
recognized variable overwrites its key when it is nonempty; the two numeric
variables overwrite only when `strconv.Atoi` succeeds - a failed parse keeps
the current value, which is what `(Atoi v).getD current` expresses;
`DLQ_ENABLED` parses as the truthiness test `v == "true" || v == "1"`.  The
Go function mutates `cfg` through eleven independent guarded assignments,
each touching exactly one field, so the sequential composition is written as
one per-field record. -/
def loadFromEnv (e : Env) (c : AppConfig) : AppConfig where
  appEnv := if e.appEnv ≠ "" then e.appEnv else c.appEnv
  appLogLevel := if e.logLevel ≠ "" then e.logLevel else c.appLogLevel
  kafkaBroker := if e.kafkaBroker ≠ "" then e.kafkaBroker else c.kafkaBroker
  kafkaTopic := if e.kafkaTopic ≠ "" then e.kafkaTopic else c.kafkaTopic
  kafkaConsumerGroup :=
    if e.kafkaConsumerGroup ≠ "" then e.kafkaConsumerGroup else c.kafkaConsumerGroup
  producerIntervalMs :=
    if e.producerIntervalMs ≠ "" then (Atoi e.producerIntervalMs).getD c.producerIntervalMs
    else c.producerIntervalMs
  producerFlushTimeoutMs := c.producerFlushTimeoutMs
  trackerLogFile := if e.trackerLogFile ≠ "" then e.trackerLogFile else c.trackerLogFile
  trackerEventsFile :=
    if e.trackerEventsFile ≠ "" then e.trackerEventsFile else c.trackerEventsFile
  trackerMetricsIntervalSeconds := c.trackerMetricsIntervalSeconds
  trackerReadTimeoutMs := c.trackerReadTimeoutMs
  trackerMaxConsecutiveErrors := c.trackerMaxConsecutiveErrors
  monitorMaxRecentLogs := c.monitorMaxRecentLogs
  monitorMaxRecentEvents := c.monitorMaxRecentEvents
  monitorUIUpdateMs := c.monitorUIUpdateMs
  retryMaxAttempts :=
    if e.retryMaxAttempts ≠ "" then (Atoi e.retryMaxAttempts).getD c.retryMaxAttempts
    else c.retryMaxAttempts
  retryInitialDelayMs := c.retryInitialDelayMs
  retryMaxDelayMs := c.retryMaxDelayMs
  retryMultiplier := c.retryMultiplier
  dlqEnabled :=
    if e.dlqEnabled ≠ "" then (e.dlqEnabled == "true" || e.dlqEnabled == "1")
    else c.dlqEnabled
  dlqTopic := if e.dlqTopic ≠ "" then e.dlqTopic else c.dlqTopic

/-- Embedding of `Load` (config loader source lines 127-144) on its success
path: start from the defaults, overlay the YAML file when one was given and
readable (`yaml = none` covers both the empty path and a missing file), then
overlay the environment. -/
def Load (yaml : Option YamlConfig) (e : Env) : AppConfig :=
  loadFromEnv e (match yaml with | some y => applyYaml y DefaultConfig | none => DefaultConfig)

end Config

section ClaimTheorems

open Retry Tracker Models Config

/-- Each processMessage step adds exactly one to the received counter. -/
theorem applyMessage_received (e : Option String) (m : Tracker.Metrics) :
    (Tracker.applyMessage e m).received = m.received + 1 := by
  cases e <;> rfl

/-- Each processMessage step preserves the difference between received and
processed plus failed. -/
theorem applyMessage_diff (e : Option String) (m : Tracker.Metrics) :
    (Tracker.applyMessage e m).received
        - ((Tracker.applyMessage e m).processed + (Tracker.applyMessage e m).failed)
      = m.received - (m.processed + m.failed) := by
  cases e <;> simp [Tracker.applyMessage, Tracker.recordMetrics] <;> ring

/-- Sequencing processMessage steps preserves the counter difference. -/
theorem applyMessages_diff (l : List (Option String)) :
    ∀ m : Tracker.Metrics,
      (Tracker.applyMessages l m).received
          - ((Tracker.applyMessages l m).processed + (Tracker.applyMessages l m).failed)
        = m.received - (m.processed + m.failed) := by
  induction l with
  | nil => intro m; rfl
  | cons e rest ih =>
    intro m
    have hstep : Tracker.applyMessages (e :: rest) m
        = Tracker.applyMessages rest (Tracker.applyMessage e m) := rfl
    rw [hstep, ih, applyMessage_diff]

/-- The received counter never decreases across processMessage sequences. -/
theorem applyMessages_received_mono (l : List (Option String)) :
    ∀ m : Tracker.Metrics, m.received ≤ (Tracker.applyMessages l m).received := by
  induction l with
  | nil => intro m; exact le_refl _
  | cons e rest ih =>
    intro m
    have hstep : Tracker.applyMessages (e :: rest) m
        = Tracker.applyMessages rest (Tracker.applyMessage e m) := rfl
    rw [hstep]
    calc m.received ≤ (Tracker.applyMessage e m).received := by
          rw [applyMessage_received]; omega
      _ ≤ _ := ih _

/-- Claim C1: for every message handled by `processMessage`, exactly one
audit entry is written to the events log via `LogEvent`, and that write is
the first observable action of the handler - it precedes every metrics
counter update and every business dispatch - both when deserialization of
the payload succeeds (`deserErr = none`) and when it fails. -/
theorem processMessage_audit_first_once (deserErr : Option String)
    (msg : Tracker.KMessage) :
    (Tracker.processMessage deserErr msg).countP Tracker.isAuditEvent = 1
    ∧ (Tracker.processMessage deserErr msg).head?
        = some (.audit (Tracker.LogEvent msg deserErr.isNone deserErr)) := by
  cases deserErr <;> exact ⟨rfl, rfl⟩

/-- Claim C7: starting from the zero metrics block, after any sequence of
handled messages the counters satisfy received = processed + failed; each
handled message increments received by exactly one and exactly one of
processed or failed; and received is monotonically nondecreasing. -/
theorem metrics_counters_invariant :
    (∀ msgs : List (Option String),
      (Tracker.applyMessages msgs Tracker.initialMetrics).received
        = (Tracker.applyMessages msgs Tracker.initialMetrics).processed
            + (Tracker.applyMessages msgs Tracker.initialMetrics).failed)
    ∧ (∀ (e : Option String) (m : Tracker.Metrics),
        (Tracker.applyMessage e m).received = m.received + 1
        ∧ ((Tracker.applyMessage e m).processed = m.processed + 1
              ∧ (Tracker.applyMessage e m).failed = m.failed
            ∨ (Tracker.applyMessage e m).failed = m.failed + 1
              ∧ (Tracker.applyMessage e m).processed = m.processed))
    ∧ (∀ (msgs : List (Option String)) (m : Tracker.Metrics),
        m.received ≤ (Tracker.applyMessages msgs m).received) := by
  refine ⟨?_, ?_, applyMessages_received_mono⟩
  · intro msgs
    have h := applyMessages_diff msgs Tracker.initialMetrics
    have h0 : Tracker.initialMetrics.received
        - (Tracker.initialMetrics.processed + Tracker.initialMetrics.failed) = 0 := rfl
    rw [h0] at h
    omega
  · intro e m
    refine ⟨applyMessage_received e m, ?_⟩
    cases e with
    | none => exact Or.inl ⟨rfl, rfl⟩
    | some s => exact Or.inr ⟨rfl, rfl⟩

/-- Claim C4 (code side): at the failing input of the bug-reproduction test -
a read error that is not a `kafka.Error` value - `handleKafkaError` returns
without writing any log and without touching the consecutive-error counter,
so the error is silently dropped; the claim (and spec sections 4.E and 9)
requires an ERROR log and a counter increment.  This evaluates the embedded
code at that input. -/
theorem handleKafkaError_generic_swallowed :
    Tracker.handleKafkaError 3 (.generic "something went wrong") 0 = (false, 0, []) := rfl

/-- Claim C5 (code side): the first `Stop` call succeeds and reaches the
stopped state, but a second `Stop` call on the already-stopped tracker
executes `close` on an already-closed channel and panics (modelled by
`none`), contradicting the idempotency the claim states. -/
theorem stop_second_call_panics :
    Tracker.Stop { running := true, stopChanClosed := false }
        = some { running := false, stopChanClosed := true }
    ∧ Tracker.Stop { running := false, stopChanClosed := true } = none :=
  ⟨rfl, rfl⟩

/-- Claim C6 (code side): when `handleKafkaError` reports ShouldStop - here
after three consecutive typed broker errors with MaxErrors = 3 - the read
loop breaks out of `Run` without clearing the running flag, so `isRunning()`
still yields true after `Run` returns, contradicting the claim that the flag
is false on every exit path. -/
theorem run_break_leaves_running_true :
    (Tracker.Run 3
        [.err (.kafka (.other 1) "boom"), .err (.kafka (.other 1) "boom"),
          .err (.kafka (.other 1) "boom")]
        ⟨false, 0, Tracker.initialMetrics⟩).running = true := rfl

/-- Claim C10: when `retry.Do` is called with MaxAttempts below one, the loop
body never runs for any closure and any context: the closure is never
invoked and the result reports success with Err = nil and
Attempts = MaxAttempts. -/
theorem do_maxAttempts_below_one (ctxDone : Nat → Bool) (cfg : Retry.Config)
    (fn : Nat → Option Retry.Err) (h : cfg.maxAttempts < 1) :
    Retry.Do ctxDone cfg fn = ⟨cfg.maxAttempts, none, 0⟩ := by
  have h0 : cfg.maxAttempts.toNat = 0 := by omega
  unfold Retry.Do
  rw [h0]
  simp [Retry.doFrom, h]

/-- Witness for claim C10 at MaxAttempts = 0. -/
theorem do_maxAttempts_below_one_witness :
    (0 : Int) < 1
    ∧ Retry.Do (fun _ => false) ⟨0, 0, 0, 1⟩ (fun _ => some (.basic "boom"))
        = ⟨0, none, 0⟩ :=
  ⟨by norm_num, do_maxAttempts_below_one _ _ _ (by norm_num)⟩

/-- The retry loop performs at most one closure invocation per remaining
attempt. -/
theorem doFrom_invoked_le (ctxDone : Nat → Bool) (fn : Nat → Option Retry.Err)
    (maxA : Int) :
    ∀ (fuel : Nat) (attempt : Int) (t : Nat) (lastErr : Option Retry.Err)
      (invoked : Nat),
      (Retry.doFrom ctxDone fn maxA attempt t lastErr invoked fuel).invoked
        ≤ invoked + (maxA + 1 - attempt).toNat := by
  intro fuel
  induction fuel with
  | zero =>
    intro attempt t lastErr invoked
    simp [Retry.doFrom]
  | succ n ih =>
    intro attempt t lastErr invoked
    rw [Retry.doFrom]
    by_cases h1 : maxA < attempt
    · simp [h1]
    · simp only [if_neg h1]
      by_cases h2 : ctxDone t
      · simp [h2]
      · simp only [h2, Bool.false_eq_true, if_neg, if_false]
        cases hfn : fn attempt.toNat with
        | none => simp; omega
        | some e =>
          by_cases hp : Retry.IsPermanent e
          · simp [hp]; omega
          · simp only [hp, Bool.false_eq_true, if_false]
            by_cases hlt : attempt < maxA
            · simp only [if_pos hlt]
              by_cases hc : ctxDone (t + 1)
              · simp [hc]; omega
              · simp only [hc, Bool.false_eq_true, if_false]
                calc (Retry.doFrom ctxDone fn maxA (attempt + 1) (t + 2) (some e)
                        (invoked + 1) n).invoked
                      ≤ (invoked + 1) + (maxA + 1 - (attempt + 1)).toNat := ih _ _ _ _
                  _ ≤ invoked + (maxA + 1 - attempt).toNat := by omega
            · simp only [if_neg hlt]
              calc (Retry.doFrom ctxDone fn maxA (attempt + 1) (t + 1) (some e)
                      (invoked + 1) n).invoked
                    ≤ (invoked + 1) + (maxA + 1 - (attempt + 1)).toNat := ih _ _ _ _
                _ ≤ invoked + (maxA + 1 - attempt).toNat := by omega

/-- Once the attempt counter exceeds MaxAttempts the loop exits with the
recorded last error. -/
theorem doFrom_exit (ctxDone : Nat → Bool) (fn : Nat → Option Retry.Err)
    (maxA attempt : Int) (t : Nat) (lastErr : Option Retry.Err) (invoked : Nat)
    (h : maxA < attempt) :
    ∀ fuel, Retry.doFrom ctxDone fn maxA attempt t lastErr invoked fuel
      = ⟨maxA, lastErr, invoked⟩ := by
  intro fuel
  cases fuel <;> simp [Retry.doFrom, h]

/-- If every attempt up to MaxAttempts fails with a non-permanent error and
the context never cancels, the loop runs to exhaustion: one invocation per
remaining attempt, finishing with the error of the last attempt. -/
theorem doFrom_all_fail (fn : Nat → Option Retry.Err) (maxA : Int)
    (hfail : ∀ i : Nat, 1 ≤ i → (i : Int) ≤ maxA →
      ∃ e, fn i = some e ∧ Retry.IsPermanent e = false) :
    ∀ (fuel : Nat) (attempt : Int) (t : Nat) (lastErr : Option Retry.Err)
      (invoked : Nat),
      1 ≤ attempt → attempt ≤ maxA → (maxA - attempt).toNat + 1 ≤ fuel →
      Retry.doFrom (fun _ => false) fn maxA attempt t lastErr invoked fuel
        = ⟨maxA, fn maxA.toNat, invoked + ((maxA - attempt).toNat + 1)⟩ := by
  intro fuel
  induction fuel with
  | zero =>
    intro attempt t lastErr invoked h1 h2 hfuel
    omega
  | succ n ih =>
    intro attempt t lastErr invoked h1 h2 hfuel
    rw [Retry.doFrom]
    simp only [if_neg (by omega : ¬ maxA < attempt), Bool.false_eq_true, if_false]
    obtain ⟨e, hfe, hperm⟩ := hfail attempt.toNat (by omega) (by omega)
    rw [hfe]
    simp only [hperm, Bool.false_eq_true, if_false]
    by_cases hlt : attempt < maxA
    · simp only [if_pos hlt, Bool.false_eq_true, if_false]
      rw [ih (attempt + 1) (t + 2) (some e) (invoked + 1) (by omega) (by omega) (by omega)]
      congr 1
      omega
    · simp only [if_neg hlt]
      have heq : attempt = maxA := le_antisymm h2 (by omega)
      rw [doFrom_exit _ _ _ _ _ _ _ (by omega)]
      subst heq
      rw [← hfe]
      congr 1
      omega

/-- Claim C2: for every retry configuration with MaxAttempts at least 1 and
every closure, `retry.Do` invokes the closure at most MaxAttempts times
(whatever the context does); with a never-cancelled context, a
Permanent-tagged error on the first invocation makes `Do` stop after exactly
one invocation and return that error with Attempts = 1; and if every
invocation fails with a non-permanent error, the closure is invoked exactly
MaxAttempts times and `Do` returns the last error with
Attempts = MaxAttempts. -/
theorem do_attempt_counts (cfg : Retry.Config) (fn : Nat → Option Retry.Err)
    (hmax : 1 ≤ cfg.maxAttempts) :
    (∀ ctxDone, (Retry.Do ctxDone cfg fn).invoked ≤ cfg.maxAttempts.toNat)
    ∧ (∀ e, fn 1 = some e → Retry.IsPermanent e = true →
        Retry.Do (fun _ => false) cfg fn = ⟨1, some e, 1⟩)
    ∧ ((∀ i : Nat, 1 ≤ i → (i : Int) ≤ cfg.maxAttempts →
          ∃ e, fn i = some e ∧ Retry.IsPermanent e = false) →
        Retry.Do (fun _ => false) cfg fn
          = ⟨cfg.maxAttempts, fn cfg.maxAttempts.toNat, cfg.maxAttempts.toNat⟩) := by
  refine ⟨?_, ?_, ?_⟩
  · intro ctxDone
    have h := doFrom_invoked_le ctxDone fn cfg.maxAttempts
      (cfg.maxAttempts.toNat + 1) 1 0 none 0
    unfold Retry.Do
    omega
  · intro e hfe hperm
    unfold Retry.Do
    rw [Retry.doFrom]
    simp only [if_neg (by omega : ¬ cfg.maxAttempts < 1), Bool.false_eq_true, if_false]
    have h1 : (1 : Int).toNat = 1 := rfl
    rw [h1, hfe]
    simp [hperm]
  · intro hfail
    unfold Retry.Do
    rw [doFrom_all_fail fn cfg.maxAttempts hfail (cfg.maxAttempts.toNat + 1) 1 0 none 0
      (by omega) (by omega) (by omega)]
    congr 1
    omega

/-- Witness for claim C2: MaxAttempts = 2 and a closure that always fails
with a non-permanent error gives exactly two invocations and the last error. -/
theorem do_attempt_counts_witness :
    (1 : Int) ≤ 2
    ∧ Retry.Do (fun _ => false) ⟨2, 0, 0, 1⟩ (fun _ => some (.basic "boom"))
        = ⟨2, some (.basic "boom"), 2⟩ :=
  ⟨by norm_num,
    (do_attempt_counts ⟨2, 0, 0, 1⟩ _ (by norm_num)).2.2
      (fun i _ _ => ⟨.basic "boom", rfl, rfl⟩)⟩

/-- Claim C3 (counterexample): in `Do`, the wait preceding attempt k is
`calculateDelay(k-1, cfg)` (retry.go lines 137-149).  Take the default-style
configuration InitialDelay = 100, MaxDelay = 5000, Multiplier = 2, attempt
k = 2 and jitter draw r = 0: the realized wait is 100 - 25 = 75, while the
interval claimed from d_2 = min(InitialDelay times Multiplier^(2-1),
MaxDelay) = 200 is [150, 250].  The claim is therefore false as stated. -/
theorem backoff_window_claim_false_at_two :
    ¬ ((3/4) * min ((100 : ℚ) * 2 ^ (2 - 1)) 5000
          ≤ Retry.calculateDelay (2 - 1) ⟨3, 100, 5000, 2⟩ 0
        ∧ Retry.calculateDelay (2 - 1) ⟨3, 100, 5000, 2⟩ 0
          ≤ (5/4) * min ((100 : ℚ) * 2 ^ (2 - 1)) 5000) := by
  norm_num [Retry.calculateDelay]

/-- Claim C3 (amended): for every configuration with InitialDelay at least 0,
MaxDelay at least InitialDelay and Multiplier at least 1, every attempt k at
least 2 and every jitter draw r in [0,1), the realized backoff wait preceding
attempt k - which is `calculateDelay(k-1, cfg)` - lies in
[0.75 d, 1.25 d] for d = min(InitialDelay times Multiplier^(k-2), MaxDelay):
the exponent is k-2, one lower than the claim stated. -/
theorem backoff_window_amended (cfg : Retry.Config) (r : ℚ) (k : Nat)
    (hk : 2 ≤ k) (h0 : 0 ≤ cfg.initialDelay) (h1 : cfg.initialDelay ≤ cfg.maxDelay)
    (h2 : 1 ≤ cfg.multiplier) (hr0 : 0 ≤ r) (hr1 : r < 1) :
    (3/4) * min (cfg.initialDelay * cfg.multiplier ^ (k - 2)) cfg.maxDelay
        ≤ Retry.calculateDelay (k - 1) cfg r
    ∧ Retry.calculateDelay (k - 1) cfg r
        ≤ (5/4) * min (cfg.initialDelay * cfg.multiplier ^ (k - 2)) cfg.maxDelay := by
  have hexp : k - 1 - 1 = k - 2 := by omega
  have hmul : (0 : ℚ) ≤ cfg.multiplier := le_trans zero_le_one h2
  have hd0 : (0 : ℚ) ≤ cfg.initialDelay * cfg.multiplier ^ (k - 2) :=
    mul_nonneg h0 (pow_nonneg hmul _)
  have hmx : (0 : ℚ) ≤ cfg.maxDelay := le_trans h0 h1
  unfold Retry.calculateDelay
  rw [hexp]
  dsimp only
  by_cases hgt : cfg.initialDelay * cfg.multiplier ^ (k - 2) > cfg.maxDelay
  · rw [if_pos hgt, min_eq_right (le_of_lt hgt)]
    constructor <;> nlinarith [mul_nonneg hmx hr0, mul_nonneg hmx (by linarith : (0:ℚ) ≤ 1 - r)]
  · rw [if_neg hgt, min_eq_left (le_of_not_lt hgt)]
    constructor <;> nlinarith [mul_nonneg hd0 hr0, mul_nonneg hd0 (by linarith : (0:ℚ) ≤ 1 - r)]

/-- Witness for the amended claim C3 at the default configuration, attempt
two and the middle jitter draw: the wait preceding attempt 2 is exactly
InitialDelay = 100 and the window is [75, 125]. -/
theorem backoff_window_amended_witness :
    ((2 : Nat) ≤ 2 ∧ (0 : ℚ) ≤ 100 ∧ (100 : ℚ) ≤ 5000 ∧ (1 : ℚ) ≤ 2
        ∧ (0 : ℚ) ≤ 1/2 ∧ (1/2 : ℚ) < 1)
    ∧ ((3/4) * min ((100 : ℚ) * 2 ^ (2 - 2)) 5000
          ≤ Retry.calculateDelay (2 - 1) ⟨3, 100, 5000, 2⟩ (1/2)
        ∧ Retry.calculateDelay (2 - 1) ⟨3, 100, 5000, 2⟩ (1/2)
          ≤ (5/4) * min ((100 : ℚ) * 2 ^ (2 - 2)) 5000) :=
  ⟨⟨le_refl 2, by norm_num, by norm_num, by norm_num, by norm_num, by norm_num⟩,
    backoff_window_amended ⟨3, 100, 5000, 2⟩ (1/2) 2 (le_refl 2) (by norm_num)
      (by norm_num) (by norm_num) (by norm_num) (by norm_num)⟩

/-- Customer validation succeeds exactly when both required customer strings
are nonblank and the email is empty or matches the pattern. -/
theorem customer_validate_none_iff (c : Models.CustomerInfo) :
    c.Validate = none ↔
      (Models.isBlank c.customerID = false ∧ Models.isBlank c.name = false
        ∧ (c.email = "" ∨ Models.emailMatch c.email = true)) := by
  unfold Models.CustomerInfo.Validate
  split_ifs with h1 h2 h3
  · simp [h1]
  · simp [h1, h2]
  · simp only [h1, h2]
    refine iff_of_false (by simp) ?_
    rintro ⟨-, -, hE⟩
    rcases hE with hE | hE
    · exact h3.1 hE
    · rw [h3.2] at hE
      cases hE
  · refine iff_of_true rfl ⟨by simpa using h1, by simpa using h2, ?_⟩
    by_cases hE : c.email = ""
    · exact Or.inl hE
    · refine Or.inr ?_
      rcases h : Models.emailMatch c.email with _ | _
      · exact absurd ⟨hE, h⟩ h3
      · rfl

/-- Item validation succeeds exactly when the spec-side item condition holds. -/
theorem item_validate_none_iff (it : Models.OrderItem) :
    it.Validate = none ↔ Models.itemSpecPass it = true := by
  unfold Models.OrderItem.Validate Models.itemSpecPass
  split_ifs with h1 h2 h3 h4 h5
  · simp [h1]
  · simp [h1, h2]
  · simp [h3]
  · simp [h4]
  · refine iff_of_false (by simp) ?_
    intro hP
    simp only [Bool.and_eq_true, decide_eq_true_eq] at hP
    exact absurd hP.2 (not_le.mpr h5)
  · refine iff_of_true rfl ?_
    simp only [Bool.and_eq_true, decide_eq_true_eq, Bool.not_eq_true']
    exact ⟨⟨⟨⟨by simpa using h1, by simpa using h2⟩, by omega⟩, not_le.mp h4⟩,
      not_lt.mp h5⟩

/-- If every item validates, the item loop returns the accumulated sum of
the item total prices. -/
theorem validateItems_ok_of_all :
    ∀ (l : List Models.OrderItem) (i : Nat) (acc : ℚ),
      (∀ it ∈ l, it.Validate = none) →
      Models.validateItems l i acc
        = .ok (acc + (l.map Models.OrderItem.totalPrice).sum) := by
  intro l
  induction l with
  | nil => intro i acc _; simp [Models.validateItems]
  | cons a rest ih =>
    intro i acc hall
    have h0 : a.Validate = none := hall a (List.mem_cons_self a rest)
    simp only [Models.validateItems, h0]
    rw [ih (i + 1) (acc + a.totalPrice) (fun x hx => hall x (List.mem_cons_of_mem _ hx))]
    simp [add_assoc]

/-- If the item loop returns a sum, every item validated. -/
theorem validateItems_ok_imp :
    ∀ (l : List Models.OrderItem) (i : Nat) (acc s : ℚ),
      Models.validateItems l i acc = .ok s → ∀ it ∈ l, it.Validate = none := by
  intro l
  induction l with
  | nil => intro i acc s _ it hit; simp at hit
  | cons a rest ih =>
    intro i acc s hok it hit
    simp only [Models.validateItems] at hok
    cases h0 : a.Validate with
    | some e => rw [h0] at hok; cases hok
    | none =>
      rw [h0] at hok
      rcases List.mem_cons.mp hit with h | h
      · rw [h]; exact h0
      · exact ih _ _ _ hok it h

/-- Order validation succeeds exactly when the conjunction of the checks of
order.go lines 161-206 holds. -/
theorem order_validate_none_iff (o : Models.Order) :
    o.Validate = none ↔
      (Models.isBlank o.orderID = false ∧ 1 ≤ o.sequence
        ∧ Models.isBlank o.status = false
        ∧ o.customerInfo.Validate = none
        ∧ o.items ≠ []
        ∧ (∀ it ∈ o.items, it.Validate = none)
        ∧ |o.subTotal - (o.items.map Models.OrderItem.totalPrice).sum| ≤ 1/100
        ∧ 0 ≤ o.tax
        ∧ |o.total - (o.subTotal + o.tax + o.shippingFee)| ≤ 1/100) := by
  unfold Models.Order.Validate
  by_cases h1 : Models.isBlank o.orderID
  · rw [if_pos h1]
    refine iff_of_false (by simp) ?_
    rintro ⟨hA, -⟩
    rw [h1] at hA
    cases hA
  · rw [if_neg h1]
    by_cases h2 : o.sequence ≤ 0
    · rw [if_pos h2]
      refine iff_of_false (by simp) ?_
      rintro ⟨-, hS, -⟩
      omega
    · rw [if_neg h2]
      by_cases h3 : Models.isBlank o.status
      · rw [if_pos h3]
        refine iff_of_false (by simp) ?_
        rintro ⟨-, -, hB, -⟩
        rw [h3] at hB
        cases hB
      · rw [if_neg h3]
        cases hc : o.customerInfo.Validate with
        | some e =>
          refine iff_of_false (by simp) ?_
          rintro ⟨-, -, -, hC, -⟩
          simp at hC
        | none =>
          by_cases hemp : o.items.isEmpty
          · simp only [hemp, if_true]
            refine iff_of_false (by simp) ?_
            rintro ⟨-, -, -, -, hNE, -⟩
            exact hNE (by simpa using hemp)
          · simp only [hemp, if_false]
            cases hv : Models.validateItems o.items 0 0 with
            | error e =>
              refine iff_of_false (by simp) ?_
              rintro ⟨-, -, -, -, -, hItems, -⟩
              rw [validateItems_ok_of_all o.items 0 0 hItems] at hv
              simp at hv
            | ok s =>
              have hall := validateItems_ok_imp o.items 0 0 s hv
              have hsum : s = (o.items.map Models.OrderItem.totalPrice).sum := by
                have hx := validateItems_ok_of_all o.items 0 0 hall
                rw [hv] at hx
                simpa using hx
              subst hsum
              simp only [Bool.false_eq_true, if_false]
              by_cases g1 : |o.subTotal - (o.items.map Models.OrderItem.totalPrice).sum| > 1/100
              · rw [if_pos g1]
                refine iff_of_false (by simp) ?_
                rintro ⟨-, -, -, -, -, -, hSub, -⟩
                exact absurd hSub (not_le.mpr g1)
              · rw [if_neg g1]
                by_cases g2 : o.tax < 0
                · rw [if_pos g2]
                  refine iff_of_false (by simp) ?_
                  rintro ⟨-, -, -, -, -, -, -, hTax, -⟩
                  exact absurd hTax (not_le.mpr g2)
                · rw [if_neg g2]
                  by_cases g3 : |o.total - (o.subTotal + o.tax + o.shippingFee)| > 1/100
                  · rw [if_pos g3]
                    refine iff_of_false (by simp) ?_
                    rintro ⟨-, -, -, -, -, -, -, -, hTot⟩
                    exact absurd hTot (not_le.mpr g3)
                  · rw [if_neg g3]
                    refine iff_of_true rfl
                      ⟨by simpa using h1, by omega, by simpa using h3, trivial,
                        by simpa using hemp, hall, not_lt.mp g1, le_of_not_lt g2,
                        not_lt.mp g3⟩

/-- Claim C8: an Order passes `Order.Validate` (returns nil) exactly when the
spec-side condition holds: required string fields nonblank, sequence at
least 1, at least one item each with positive quantity, positive unit price
and per-item total matching within 0.01, subtotal matching the sum of item
totals within 0.01, nonnegative tax, total matching subtotal plus tax plus
shipping within 0.01, and the customer email empty or matching the email
pattern. -/
theorem order_validate_iff_spec (o : Models.Order) :
    o.Validate = none ↔ Models.orderSpecPass o = true := by
  rw [order_validate_none_iff, customer_validate_none_iff]
  have hitems : (∀ it ∈ o.items, it.Validate = none)
      ↔ (∀ it ∈ o.items, Models.itemSpecPass it = true) :=
    ⟨fun h it hit => (item_validate_none_iff it).mp (h it hit),
      fun h it hit => (item_validate_none_iff it).mpr (h it hit)⟩
  rw [hitems]
  simp only [Models.orderSpecPass, Bool.and_eq_true, decide_eq_true_eq,
    List.all_eq_true, Bool.or_eq_true, beq_iff_eq, Bool.not_eq_true',
    List.isEmpty_eq_false, List.isEmpty_eq_true, ne_eq]
  tauto

end ClaimTheorems
section ConfigTheorems

/-- Precedence of the kafka.broker key. -/
theorem load_kafkaBroker (yaml : Option Config.YamlConfig) (e : Config.Env) :
    (e.kafkaBroker ≠ "" → (Config.Load yaml e).kafkaBroker = e.kafkaBroker)
    ∧ (e.kafkaBroker = "" → (Config.Load yaml e).kafkaBroker
        = (yaml.bind fun y => y.kafkaBroker).getD "localhost:9092") := by
  cases yaml <;> constructor <;> intro h <;>
    simp [Config.Load, Config.loadFromEnv, Config.applyYaml, Config.DefaultConfig,
      Option.bind, h]

/-- Precedence of the kafka.topic key. -/
theorem load_kafkaTopic (yaml : Option Config.YamlConfig) (e : Config.Env) :
    (e.kafkaTopic ≠ "" → (Config.Load yaml e).kafkaTopic = e.kafkaTopic)
    ∧ (e.kafkaTopic = "" → (Config.Load yaml e).kafkaTopic
        = (yaml.bind fun y => y.kafkaTopic).getD "orders") := by
  cases yaml <;> constructor <;> intro h <;>
    simp [Config.Load, Config.loadFromEnv, Config.applyYaml, Config.DefaultConfig,
      Option.bind, h]

/-- Precedence of the kafka.consumer_group key. -/
theorem load_kafkaConsumerGroup (yaml : Option Config.YamlConfig) (e : Config.Env) :
    (e.kafkaConsumerGroup ≠ "" →
        (Config.Load yaml e).kafkaConsumerGroup = e.kafkaConsumerGroup)
    ∧ (e.kafkaConsumerGroup = "" → (Config.Load yaml e).kafkaConsumerGroup
        = (yaml.bind fun y => y.kafkaConsumerGroup).getD "order-tracker-group") := by
  cases yaml <;> constructor <;> intro h <;>
    simp [Config.Load, Config.loadFromEnv, Config.applyYaml, Config.DefaultConfig,
      Option.bind, h]

/-- Precedence of the producer.interval_ms key. -/
theorem load_producerIntervalMs (yaml : Option Config.YamlConfig) (e : Config.Env) :
    (∀ n : Int, e.producerIntervalMs ≠ "" → Config.Atoi e.producerIntervalMs = some n →
        (Config.Load yaml e).producerIntervalMs = n)
    ∧ (e.producerIntervalMs = "" → (Config.Load yaml e).producerIntervalMs
        = (yaml.bind fun y => y.producerIntervalMs).getD 2000) := by
  cases yaml <;> constructor <;> first
    | (intro n h hn
       simp [Config.Load, Config.loadFromEnv, Config.applyYaml, Config.DefaultConfig,
         Option.bind, h, hn])
    | (intro h
       simp [Config.Load, Config.loadFromEnv, Config.applyYaml, Config.DefaultConfig,
         Option.bind, h])

/-- Precedence of the tracker.log_file key. -/
theorem load_trackerLogFile (yaml : Option Config.YamlConfig) (e : Config.Env) :
    (e.trackerLogFile ≠ "" → (Config.Load yaml e).trackerLogFile = e.trackerLogFile)
    ∧ (e.trackerLogFile = "" → (Config.Load yaml e).trackerLogFile
        = (yaml.bind fun y => y.trackerLogFile).getD "tracker.log") := by
  cases yaml <;> constructor <;> intro h <;>
    simp [Config.Load, Config.loadFromEnv, Config.applyYaml, Config.DefaultConfig,
      Option.bind, h]

/-- Precedence of the tracker.events_file key. -/
theorem load_trackerEventsFile (yaml : Option Config.YamlConfig) (e : Config.Env) :
    (e.trackerEventsFile ≠ "" →
        (Config.Load yaml e).trackerEventsFile = e.trackerEventsFile)
    ∧ (e.trackerEventsFile = "" → (Config.Load yaml e).trackerEventsFile
        = (yaml.bind fun y => y.trackerEventsFile).getD "tracker.events") := by
  cases yaml <;> constructor <;> intro h <;>
    simp [Config.Load, Config.loadFromEnv, Config.applyYaml, Config.DefaultConfig,
      Option.bind, h]

/-- Precedence of the three tracker numeric keys, which have no environment
variable: yaml if present, else the default. -/
theorem load_trackerNumeric (yaml : Option Config.YamlConfig) (e : Config.Env) :
    (Config.Load yaml e).trackerMetricsIntervalSeconds
        = (yaml.bind fun y => y.trackerMetricsIntervalSeconds).getD 30
    ∧ (Config.Load yaml e).trackerReadTimeoutMs
        = (yaml.bind fun y => y.trackerReadTimeoutMs).getD 1000
    ∧ (Config.Load yaml e).trackerMaxConsecutiveErrors
        = (yaml.bind fun y => y.trackerMaxConsecutiveErrors).getD 3 := by
  cases yaml <;>
    simp [Config.Load, Config.loadFromEnv, Config.applyYaml, Config.DefaultConfig,
      Option.bind]

/-- Precedence of the retry.max_attempts key. -/
theorem load_retryMaxAttempts (yaml : Option Config.YamlConfig) (e : Config.Env) :
    (∀ n : Int, e.retryMaxAttempts ≠ "" → Config.Atoi e.retryMaxAttempts = some n →
        (Config.Load yaml e).retryMaxAttempts = n)
    ∧ (e.retryMaxAttempts = "" → (Config.Load yaml e).retryMaxAttempts
        = (yaml.bind fun y => y.retryMaxAttempts).getD 3) := by
  cases yaml <;> constructor <;> first
    | (intro n h hn
       simp [Config.Load, Config.loadFromEnv, Config.applyYaml, Config.DefaultConfig,
         Option.bind, h, hn])
    | (intro h
       simp [Config.Load, Config.loadFromEnv, Config.applyYaml, Config.DefaultConfig,
         Option.bind, h])

/-- Precedence of the three remaining retry keys, which have no environment
variable: yaml if present, else the default. -/
theorem load_retryNumeric (yaml : Option Config.YamlConfig) (e : Config.Env) :
    (Config.Load yaml e).retryInitialDelayMs
        = (yaml.bind fun y => y.retryInitialDelayMs).getD 100
    ∧ (Config.Load yaml e).retryMaxDelayMs
        = (yaml.bind fun y => y.retryMaxDelayMs).getD 5000
    ∧ (Config.Load yaml e).retryMultiplier
        = (yaml.bind fun y => y.retryMultiplier).getD 2 := by
  cases yaml <;>
    simp [Config.Load, Config.loadFromEnv, Config.applyYaml, Config.DefaultConfig,
      Option.bind]

/-- Precedence of the dlq.enabled key: a nonempty DLQ_ENABLED parses by the
truthiness test, otherwise yaml if present, else true. -/
theorem load_dlqEnabled (yaml : Option Config.YamlConfig) (e : Config.Env) :
    (e.dlqEnabled ≠ "" → (Config.Load yaml e).dlqEnabled
        = (e.dlqEnabled == "true" || e.dlqEnabled == "1"))
    ∧ (e.dlqEnabled = "" → (Config.Load yaml e).dlqEnabled
        = (yaml.bind fun y => y.dlqEnabled).getD true) := by
  cases yaml <;> constructor <;> intro h <;>
    simp [Config.Load, Config.loadFromEnv, Config.applyYaml, Config.DefaultConfig,
      Option.bind, h]

/-- Precedence of the dlq.topic key. -/
theorem load_dlqTopic (yaml : Option Config.YamlConfig) (e : Config.Env) :
    (e.dlqTopic ≠ "" → (Config.Load yaml e).dlqTopic = e.dlqTopic)
    ∧ (e.dlqTopic = "" → (Config.Load yaml e).dlqTopic
        = (yaml.bind fun y => y.dlqTopic).getD "orders-dlq") := by
  cases yaml <;> constructor <;> intro h <;>
    simp [Config.Load, Config.loadFromEnv, Config.applyYaml, Config.DefaultConfig,
      Option.bind, h]

/-- Precedence of the app.env key. -/
theorem load_appEnv (yaml : Option Config.YamlConfig) (e : Config.Env) :
    (e.appEnv ≠ "" → (Config.Load yaml e).appEnv = e.appEnv)
    ∧ (e.appEnv = "" → (Config.Load yaml e).appEnv
        = (yaml.bind fun y => y.appEnv).getD "development") := by
  cases yaml <;> constructor <;> intro h <;>
    simp [Config.Load, Config.loadFromEnv, Config.applyYaml, Config.DefaultConfig,
      Option.bind, h]

/-- Precedence of the app.log_level key. -/
theorem load_appLogLevel (yaml : Option Config.YamlConfig) (e : Config.Env) :
    (e.logLevel ≠ "" → (Config.Load yaml e).appLogLevel = e.logLevel)
    ∧ (e.logLevel = "" → (Config.Load yaml e).appLogLevel
        = (yaml.bind fun y => y.appLogLevel).getD "info") := by
  cases yaml <;> constructor <;> intro h <;>
    simp [Config.Load, Config.loadFromEnv, Config.applyYaml, Config.DefaultConfig,
      Option.bind, h]

/-- Claim C9: for every recognized configuration key, the value in the
AppConfig returned by `Load` is the environment value when the variable is
set (nonempty, and for the numeric keys parseable; DLQ_ENABLED parsed by the
documented truthiness test), otherwise the YAML value when the file provides
the key, otherwise the built-in default (kafka.broker localhost:9092,
kafka.topic orders, kafka.consumer_group order-tracker-group,
producer.interval_ms 2000, tracker.log_file tracker.log, tracker.events_file
tracker.events, tracker.metrics_interval_seconds 30, tracker.read_timeout_ms
1000, tracker.max_consecutive_errors 3, retry.max_attempts 3,
retry.initial_delay_ms 100, retry.max_delay_ms 5000, retry.multiplier 2,
dlq.enabled true, dlq.topic orders-dlq, app.env development, app.log_level
info). -/
theorem load_precedence (yaml : Option Config.YamlConfig) (e : Config.Env) :
    ((e.kafkaBroker ≠ "" → (Config.Load yaml e).kafkaBroker = e.kafkaBroker)
      ∧ (e.kafkaBroker = "" → (Config.Load yaml e).kafkaBroker
          = (yaml.bind fun y => y.kafkaBroker).getD "localhost:9092"))
    ∧ ((e.kafkaTopic ≠ "" → (Config.Load yaml e).kafkaTopic = e.kafkaTopic)
      ∧ (e.kafkaTopic = "" → (Config.Load yaml e).kafkaTopic
          = (yaml.bind fun y => y.kafkaTopic).getD "orders"))
    ∧ ((e.kafkaConsumerGroup ≠ "" →
          (Config.Load yaml e).kafkaConsumerGroup = e.kafkaConsumerGroup)
      ∧ (e.kafkaConsumerGroup = "" → (Config.Load yaml e).kafkaConsumerGroup
          = (yaml.bind fun y => y.kafkaConsumerGroup).getD "order-tracker-group"))
    ∧ ((∀ n : Int, e.producerIntervalMs ≠ "" →
          Config.Atoi e.producerIntervalMs = some n →
          (Config.Load yaml e).producerIntervalMs = n)
      ∧ (e.producerIntervalMs = "" → (Config.Load yaml e).producerIntervalMs
          = (yaml.bind fun y => y.producerIntervalMs).getD 2000))
    ∧ ((e.trackerLogFile ≠ "" → (Config.Load yaml e).trackerLogFile = e.trackerLogFile)
      ∧ (e.trackerLogFile = "" → (Config.Load yaml e).trackerLogFile
          = (yaml.bind fun y => y.trackerLogFile).getD "tracker.log"))
    ∧ ((e.trackerEventsFile ≠ "" →
          (Config.Load yaml e).trackerEventsFile = e.trackerEventsFile)
      ∧ (e.trackerEventsFile = "" → (Config.Load yaml e).trackerEventsFile
          = (yaml.bind fun y => y.trackerEventsFile).getD "tracker.events"))
    ∧ ((Config.Load yaml e).trackerMetricsIntervalSeconds
        = (yaml.bind fun y => y.trackerMetricsIntervalSeconds).getD 30)
    ∧ ((Config.Load yaml e).trackerReadTimeoutMs
        = (yaml.bind fun y => y.trackerReadTimeoutMs).getD 1000)
    ∧ ((Config.Load yaml e).trackerMaxConsecutiveErrors
        = (yaml.bind fun y => y.trackerMaxConsecutiveErrors).getD 3)
    ∧ ((∀ n : Int, e.retryMaxAttempts ≠ "" →
          Config.Atoi e.retryMaxAttempts = some n →
          (Config.Load yaml e).retryMaxAttempts = n)
      ∧ (e.retryMaxAttempts = "" → (Config.Load yaml e).retryMaxAttempts
          = (yaml.bind fun y => y.retryMaxAttempts).getD 3))
    ∧ ((Config.Load yaml e).retryInitialDelayMs
        = (yaml.bind fun y => y.retryInitialDelayMs).getD 100)
    ∧ ((Config.Load yaml e).retryMaxDelayMs
        = (yaml.bind fun y => y.retryMaxDelayMs).getD 5000)
    ∧ ((Config.Load yaml e).retryMultiplier
        = (yaml.bind fun y => y.retryMultiplier).getD 2)
    ∧ ((e.dlqEnabled ≠ "" → (Config.Load yaml e).dlqEnabled
          = (e.dlqEnabled == "true" || e.dlqEnabled == "1"))
      ∧ (e.dlqEnabled = "" → (Config.Load yaml e).dlqEnabled
          = (yaml.bind fun y => y.dlqEnabled).getD true))
    ∧ ((e.dlqTopic ≠ "" → (Config.Load yaml e).dlqTopic = e.dlqTopic)
      ∧ (e.dlqTopic = "" → (Config.Load yaml e).dlqTopic
          = (yaml.bind fun y => y.dlqTopic).getD "orders-dlq"))
    ∧ ((e.appEnv ≠ "" → (Config.Load yaml e).appEnv = e.appEnv)
      ∧ (e.appEnv = "" → (Config.Load yaml e).appEnv
          = (yaml.bind fun y => y.appEnv).getD "development"))
    ∧ ((e.logLevel ≠ "" → (Config.Load yaml e).appLogLevel = e.logLevel)
      ∧ (e.logLevel = "" → (Config.Load yaml e).appLogLevel
          = (yaml.bind fun y => y.appLogLevel).getD "info")) :=
  ⟨load_kafkaBroker yaml e, load_kafkaTopic yaml e, load_kafkaConsumerGroup yaml e,
    load_producerIntervalMs yaml e, load_trackerLogFile yaml e,
    load_trackerEventsFile yaml e, (load_trackerNumeric yaml e).1,
    (load_trackerNumeric yaml e).2.1, (load_trackerNumeric yaml e).2.2,
    load_retryMaxAttempts yaml e, (load_retryNumeric yaml e).1,
    (load_retryNumeric yaml e).2.1, (load_retryNumeric yaml e).2.2,
    load_dlqEnabled yaml e, load_dlqTopic yaml e, load_appEnv yaml e,
    load_appLogLevel yaml e⟩

/-- Witness for claim C9: with KAFKA_BROKER and RETRY_MAX_ATTEMPTS and
DLQ_ENABLED set, a YAML file providing kafka.topic and retry.initial_delay_ms
and everything else unset, the loaded configuration takes the broker and the
parsed retry attempts and the truthy flag from the environment, the topic and
the initial delay from the file, and the consumer group from the defaults. -/
theorem load_precedence_witness :
    (Config.Load (some { kafkaTopic := some "t", retryInitialDelayMs := some 250 })
        { kafkaBroker := "b:1", retryMaxAttempts := "5", dlqEnabled := "1" }).kafkaBroker
      = "b:1"
    ∧ (Config.Load (some { kafkaTopic := some "t", retryInitialDelayMs := some 250 })
        { kafkaBroker := "b:1", retryMaxAttempts := "5", dlqEnabled := "1" }).kafkaTopic
      = "t"
    ∧ (Config.Load (some { kafkaTopic := some "t", retryInitialDelayMs := some 250 })
        { kafkaBroker := "b:1", retryMaxAttempts := "5",
          dlqEnabled := "1" }).kafkaConsumerGroup
      = "order-tracker-group"
    ∧ (Config.Load (some { kafkaTopic := some "t", retryInitialDelayMs := some 250 })
        { kafkaBroker := "b:1", retryMaxAttempts := "5",
          dlqEnabled := "1" }).retryMaxAttempts
      = 5
    ∧ (Config.Load (some { kafkaTopic := some "t", retryInitialDelayMs := some 250 })
        { kafkaBroker := "b:1", retryMaxAttempts := "5",
          dlqEnabled := "1" }).retryInitialDelayMs
      = 250
    ∧ (Config.Load (some { kafkaTopic := some "t", retryInitialDelayMs := some 250 })
        { kafkaBroker := "b:1", retryMaxAttempts := "5", dlqEnabled := "1" }).dlqEnabled
      = true :=
  ⟨(load_precedence _ _).1.1 (by decide),
    (load_precedence _ _).2.1.2 (by decide),
    (load_precedence _ _).2.2.1.2 (by decide),
    (load_precedence _ _).2.2.2.2.2.2.2.2.2.1.1 5 (by decide) (by decide),
    (load_precedence _ _).2.2.2.2.2.2.2.2.2.2.1,
    (load_precedence _ _).2.2.2.2.2.2.2.2.2.2.2.2.2.1.1 (by decide)⟩

end ConfigTheorems

